import Mathlib

/-!
Verification of the home-display-agent tool adapter.

The repository is an MCP server (src/main.py plus src/tools/) that maps
named tool invocations onto single outbound HTTP requests against five
backend services.  This file gives a shallow embedding of the adapter:

* `Json` models decoded JSON values (numbers restricted to integers,
  which covers every numeric value appearing in the adapter's payloads);
* `pyStr`/`pyRepr` model Python's `str()`/`repr()` rendering of those
  values (printable-ASCII strings; escaping is modelled for backslash,
  quote, newline, carriage return and tab);
* `executeToolRequest` models the request built by `_execute_tool` in
  src/main.py (the verbose-logging dispatcher, whose shared client is
  created with `timeout=60.0`);
* `call_audio_tool` … `call_monitor_tool` model the per-backend handlers
  of src/tools/*.py (the terse dispatchers, with per-call timeouts);
* `executeTool`/`callTool` model the dispatch-and-render pipeline of
  `call_tool` in src/main.py, with backend behaviour abstracted as a
  function from requests to transport results;
* `loadConfig` models src/config.py.
-/

/-- Decoded JSON values.  Python `None`/`True`/`False`/`int`/`str`/`list`/
`dict` respectively; JSON numbers are modelled as integers (no payload in
this adapter carries a fractional number). -/
inductive Json where
  | null : Json
  | bool : Bool → Json
  | num : Int → Json
  | str : String → Json
  | arr : List Json → Json
  | obj : List (String × Json) → Json

/-- Python truthiness of a decoded JSON value: `None`, `False`, `0`, the
empty string, the empty list and the empty dict are falsy. -/
def pyTruthy : Json → Bool
  | .null => false
  | .bool b => b
  | .num n => n != 0
  | .str s => !s.isEmpty
  | .arr l => !l.isEmpty
  | .obj l => !l.isEmpty

/-- One character of Python `repr` of a string, given the quote character
chosen for the literal.  Escapes backslash, the quote itself, and the
common control characters. -/
def pyEscapeChar (quote c : Char) : String :=
  if c = '\\' then "\\\\"
  else if c = quote then "\\" ++ String.singleton quote
  else if c = '\n' then "\\n"
  else if c = '\r' then "\\r"
  else if c = '\t' then "\\t"
  else String.singleton c

/-- Python `repr` of a string: single-quoted, unless the string contains a
single quote and no double quote, in which case it is double-quoted. -/
def pyReprStr (s : String) : String :=
  let sq : Char := Char.ofNat 39
  let dq : Char := Char.ofNat 34
  let has : Char → Bool := fun c => s.toList.any (fun x => x = c)
  let quote := if has sq && !has dq then dq else sq
  String.singleton quote ++ String.join (s.toList.map (pyEscapeChar quote)) ++ String.singleton quote

mutual

/-- Python `repr` of a decoded JSON value (which is also `str` of that
value for every non-string value): `None`, `True`, `False`, decimal
integers, quoted strings, `[v, …]` lists and `\x7b'k': v, …\x7d` dicts. -/
def pyRepr : Json → String
  | .null => "None"
  | .bool true => "True"
  | .bool false => "False"
  | .num n => toString n
  | .str s => pyReprStr s
  | .arr l => "[" ++ pyReprList l ++ "]"
  | .obj l => "\x7b" ++ pyReprFields l ++ "\x7d"
termination_by structural x => x

/-- Comma-separated `repr` of list elements. -/
def pyReprList : List Json → String
  | [] => ""
  | [v] => pyRepr v
  | v :: vs => pyRepr v ++ ", " ++ pyReprList vs
termination_by structural x => x

/-- Comma-separated `repr` of dict entries. -/
def pyReprFields : List (String × Json) → String
  | [] => ""
  | [(k, v)] => pyReprStr k ++ ": " ++ pyRepr v
  | (k, v) :: kvs => pyReprStr k ++ ": " ++ pyRepr v ++ ", " ++ pyReprFields kvs
termination_by structural x => x

end

/-- Python `str()` of a decoded JSON value: the string itself for strings,
`repr` otherwise.  This is the rendering applied by
`TextContent(type="text", text=str(result))`. -/
def pyStr : Json → String
  | .str s => s
  | v => pyRepr v

/-- A tool-invocation argument mapping (a Python dict with string keys). -/
def ArgMap := List (String × Json)

/-- Dict lookup: `arguments[k]` / the test `k in arguments`. -/
def getArg (args : ArgMap) (k : String) : Option Json :=
  (List.find? (fun p => p.1 == k) args).map (fun p => p.2)

/-- Python `arguments.get(k, d)`. -/
def pyGet (args : ArgMap) (k : String) (d : Json) : Json :=
  (getArg args k).getD d

/-- Python `arguments.get(k)` (default `None`). -/
def pyGetN (args : ArgMap) (k : String) : Json :=
  (getArg args k).getD .null

/-- An exception raised while building a request: a `KeyError` on a
missing required argument, or the `ValueError` raised for an unknown tool
name. -/
inductive BuildError where
  | keyError : String → BuildError
  | unknownTool : String → BuildError

/-- Python `arguments[k]`: the value when present, a `KeyError` otherwise. -/
def requireArg (args : ArgMap) (k : String) : Except BuildError Json :=
  match getArg args k with
  | some v => .ok v
  | none => .error (.keyError k)

/-- HTTP method used by the adapter. -/
inductive Method where
  | get
  | post
  | delete
deriving DecidableEq

/-- One outbound HTTP request: method, fully built URL string, optional
JSON body, query parameters, and the per-call timeout in seconds. -/
structure HttpRequest where
  method : Method
  url : String
  body : Option Json
  params : List (String × Json)
  timeout : Nat

/-- The five backend base URLs (ServiceConfig in src/config.py). -/
structure ServiceConfig where
  audio_id_url : String
  image_opt_url : String
  overlay_url : String
  dispatcher_url : String
  monitor_url : String

/-- Request built by one invocation of `_execute_tool` in src/main.py.
Every branch shares one `httpx.AsyncClient(timeout=60.0)`, so every
request carries a 60-second timeout.  A missing required argument is a
`KeyError`; a name matched by none of the `elif` branches is the
`ValueError("Unknown tool: ...")` of the final `else`. -/
def executeToolRequest (cfg : ServiceConfig) (name : String) (args : ArgMap) :
    Except BuildError HttpRequest :=
  if name = "audio_identify" then do
    let source ← requireArg args "source"
    .ok ⟨.post, cfg.audio_id_url ++ "/identify",
      some (.obj [("source", source), ("duration", pyGet args "duration" (.num 10))]), [], 60⟩
  else if name = "audio_status" then do
    let jid ← requireArg args "job_id"
    .ok ⟨.get, cfg.audio_id_url ++ "/status/" ++ pyStr jid, none, [], 60⟩
  else if name = "image_optimize" then do
    let source ← requireArg args "source"
    let base := [("source", source), ("format", pyGet args "format" (.str "webp")),
      ("quality", pyGet args "quality" (.num 85))]
    let withW := match getArg args "width" with
      | some w => base ++ [("width", w)]
      | none => base
    let withWH := match getArg args "height" with
      | some h => withW ++ [("height", h)]
      | none => withW
    .ok ⟨.post, cfg.image_opt_url ++ "/optimize", some (.obj withWH), [], 60⟩
  else if name = "image_info" then do
    let source ← requireArg args "source"
    .ok ⟨.post, cfg.image_opt_url ++ "/info", some (.obj [("source", source)]), [], 60⟩
  else if name = "overlay_create" then do
    let template ← requireArg args "template"
    let data ← requireArg args "data"
    .ok ⟨.post, cfg.overlay_url ++ "/create",
      some (.obj [("template", template), ("data", data),
        ("width", pyGet args "width" (.num 1920)),
        ("height", pyGet args "height" (.num 1080))]), [], 60⟩
  else if name = "overlay_list_templates" then
    .ok ⟨.get, cfg.overlay_url ++ "/templates", none, [], 60⟩
  else if name = "overlay_preview" then do
    let template ← requireArg args "template"
    let data ← requireArg args "data"
    .ok ⟨.post, cfg.overlay_url ++ "/preview",
      some (.obj [("template", template), ("data", data)]), [], 60⟩
  else if name = "dispatcher_enqueue" then do
    let job_type ← requireArg args "job_type"
    let source ← requireArg args "source"
    let base := [("job_type", job_type), ("source", source),
      ("priority", pyGet args "priority" (.num 5))]
    let payload := match getArg args "options" with
      | some o => base ++ [("options", o)]
      | none => base
    .ok ⟨.post, cfg.dispatcher_url ++ "/enqueue", some (.obj payload), [], 60⟩
  else if name = "dispatcher_queue_status" then
    .ok ⟨.get, cfg.dispatcher_url ++ "/queue/status", none, [], 60⟩
  else if name = "dispatcher_job_status" then do
    let jid ← requireArg args "job_id"
    .ok ⟨.get, cfg.dispatcher_url ++ "/job/" ++ pyStr jid, none, [], 60⟩
  else if name = "dispatcher_cancel" then do
    let jid ← requireArg args "job_id"
    .ok ⟨.delete, cfg.dispatcher_url ++ "/job/" ++ pyStr jid, none, [], 60⟩
  else if name = "monitor_health" then
    .ok ⟨.get, cfg.monitor_url ++ "/health", none, [], 60⟩
  else if name = "monitor_stream_status" then
    .ok ⟨.get, cfg.monitor_url ++ "/stream/status", none, [], 60⟩
  else if name = "monitor_failures" then
    let base := [("limit", pyGet args "limit" (.num 10))]
    let params := match getArg args "service" with
      | some s => base ++ [("service", s)]
      | none => base
    .ok ⟨.get, cfg.monitor_url ++ "/failures", none, params, 60⟩
  else if name = "monitor_metrics" then
    .ok ⟨.get, cfg.monitor_url ++ "/metrics", none,
      [("period", pyGet args "period" (.str "1h"))], 60⟩
  else .error (.unknownTool name)

/-- src/tools/audio_id.py `audio_identify`: POST to base plus `/identify`,
timeout 30 s. -/
def audio_identify (cfg : ServiceConfig) (source duration : Json) : HttpRequest :=
  ⟨.post, cfg.audio_id_url ++ "/identify",
    some (.obj [("source", source), ("duration", duration)]), [], 30⟩

/-- src/tools/audio_id.py `audio_status`: GET to base plus `/status/` plus
the interpolated job id, timeout 10 s. -/
def audio_status (cfg : ServiceConfig) (job_id : Json) : HttpRequest :=
  ⟨.get, cfg.audio_id_url ++ "/status/" ++ pyStr job_id, none, [], 10⟩

/-- src/tools/audio_id.py `call_audio_tool`. -/
def call_audio_tool (cfg : ServiceConfig) (name : String) (args : ArgMap) :
    Except BuildError HttpRequest :=
  if name = "audio_identify" then do
    let source ← requireArg args "source"
    .ok (audio_identify cfg source (pyGet args "duration" (.num 10)))
  else if name = "audio_status" then do
    let jid ← requireArg args "job_id"
    .ok (audio_status cfg jid)
  else .error (.unknownTool name)

/-- src/tools/image_opt.py `image_optimize`: width and height are included
only when truthy (the Python `if width:` and `if height:` guards), timeout
60 s. -/
def image_optimize (cfg : ServiceConfig) (source width height fmt quality : Json) :
    HttpRequest :=
  let base := [("source", source), ("format", fmt), ("quality", quality)]
  let b1 := if pyTruthy width then base ++ [("width", width)] else base
  let b2 := if pyTruthy height then b1 ++ [("height", height)] else b1
  ⟨.post, cfg.image_opt_url ++ "/optimize", some (.obj b2), [], 60⟩

/-- src/tools/image_opt.py `image_info`: POST to base plus `/info`,
timeout 30 s. -/
def image_info (cfg : ServiceConfig) (source : Json) : HttpRequest :=
  ⟨.post, cfg.image_opt_url ++ "/info", some (.obj [("source", source)]), [], 30⟩

/-- src/tools/image_opt.py `call_image_tool`; absent width and height are
passed through as Python `None` (`arguments.get`). -/
def call_image_tool (cfg : ServiceConfig) (name : String) (args : ArgMap) :
    Except BuildError HttpRequest :=
  if name = "image_optimize" then do
    let source ← requireArg args "source"
    .ok (image_optimize cfg source (pyGetN args "width") (pyGetN args "height")
      (pyGet args "format" (.str "webp")) (pyGet args "quality" (.num 85)))
  else if name = "image_info" then do
    let source ← requireArg args "source"
    .ok (image_info cfg source)
  else .error (.unknownTool name)

/-- src/tools/overlay.py `overlay_create`: timeout 30 s. -/
def overlay_create (cfg : ServiceConfig) (template data width height : Json) :
    HttpRequest :=
  ⟨.post, cfg.overlay_url ++ "/create",
    some (.obj [("template", template), ("data", data),
      ("width", width), ("height", height)]), [], 30⟩

/-- src/tools/overlay.py `overlay_list_templates`: timeout 10 s. -/
def overlay_list_templates (cfg : ServiceConfig) : HttpRequest :=
  ⟨.get, cfg.overlay_url ++ "/templates", none, [], 10⟩

/-- src/tools/overlay.py `overlay_preview`: timeout 30 s. -/
def overlay_preview (cfg : ServiceConfig) (template data : Json) : HttpRequest :=
  ⟨.post, cfg.overlay_url ++ "/preview",
    some (.obj [("template", template), ("data", data)]), [], 30⟩

/-- src/tools/overlay.py `call_overlay_tool`. -/
def call_overlay_tool (cfg : ServiceConfig) (name : String) (args : ArgMap) :
    Except BuildError HttpRequest :=
  if name = "overlay_create" then do
    let template ← requireArg args "template"
    let data ← requireArg args "data"
    .ok (overlay_create cfg template data
      (pyGet args "width" (.num 1920)) (pyGet args "height" (.num 1080)))
  else if name = "overlay_list_templates" then
    .ok (overlay_list_templates cfg)
  else if name = "overlay_preview" then do
    let template ← requireArg args "template"
    let data ← requireArg args "data"
    .ok (overlay_preview cfg template data)
  else .error (.unknownTool name)

/-- src/tools/dispatcher.py `dispatcher_enqueue`: options included only
when truthy, timeout 10 s. -/
def dispatcher_enqueue (cfg : ServiceConfig) (job_type source priority options : Json) :
    HttpRequest :=
  let base := [("job_type", job_type), ("source", source), ("priority", priority)]
  let payload := if pyTruthy options then base ++ [("options", options)] else base
  ⟨.post, cfg.dispatcher_url ++ "/enqueue", some (.obj payload), [], 10⟩

/-- src/tools/dispatcher.py `dispatcher_queue_status`: timeout 10 s. -/
def dispatcher_queue_status (cfg : ServiceConfig) : HttpRequest :=
  ⟨.get, cfg.dispatcher_url ++ "/queue/status", none, [], 10⟩

/-- src/tools/dispatcher.py `dispatcher_job_status`: timeout 10 s. -/
def dispatcher_job_status (cfg : ServiceConfig) (job_id : Json) : HttpRequest :=
  ⟨.get, cfg.dispatcher_url ++ "/job/" ++ pyStr job_id, none, [], 10⟩

/-- src/tools/dispatcher.py `dispatcher_cancel`: DELETE, timeout 10 s. -/
def dispatcher_cancel (cfg : ServiceConfig) (job_id : Json) : HttpRequest :=
  ⟨.delete, cfg.dispatcher_url ++ "/job/" ++ pyStr job_id, none, [], 10⟩

/-- src/tools/dispatcher.py `call_dispatcher_tool`. -/
def call_dispatcher_tool (cfg : ServiceConfig) (name : String) (args : ArgMap) :
    Except BuildError HttpRequest :=
  if name = "dispatcher_enqueue" then do
    let job_type ← requireArg args "job_type"
    let source ← requireArg args "source"
    .ok (dispatcher_enqueue cfg job_type source
      (pyGet args "priority" (.num 5)) (pyGetN args "options"))
  else if name = "dispatcher_queue_status" then
    .ok (dispatcher_queue_status cfg)
  else if name = "dispatcher_job_status" then do
    let jid ← requireArg args "job_id"
    .ok (dispatcher_job_status cfg jid)
  else if name = "dispatcher_cancel" then do
    let jid ← requireArg args "job_id"
    .ok (dispatcher_cancel cfg jid)
  else .error (.unknownTool name)

/-- src/tools/monitor.py `monitor_health`: timeout 10 s. -/
def monitor_health (cfg : ServiceConfig) : HttpRequest :=
  ⟨.get, cfg.monitor_url ++ "/health", none, [], 10⟩

/-- src/tools/monitor.py `monitor_stream_status`: timeout 10 s. -/
def monitor_stream_status (cfg : ServiceConfig) : HttpRequest :=
  ⟨.get, cfg.monitor_url ++ "/stream/status", none, [], 10⟩

/-- src/tools/monitor.py `monitor_failures`: service included only when
truthy, timeout 10 s. -/
def monitor_failures (cfg : ServiceConfig) (limit service : Json) : HttpRequest :=
  let params :=
    if pyTruthy service then [("limit", limit), ("service", service)]
    else [("limit", limit)]
  ⟨.get, cfg.monitor_url ++ "/failures", none, params, 10⟩

/-- src/tools/monitor.py `monitor_metrics`: timeout 10 s. -/
def monitor_metrics (cfg : ServiceConfig) (period : Json) : HttpRequest :=
  ⟨.get, cfg.monitor_url ++ "/metrics", none, [("period", period)], 10⟩

/-- src/tools/monitor.py `call_monitor_tool`. -/
def call_monitor_tool (cfg : ServiceConfig) (name : String) (args : ArgMap) :
    Except BuildError HttpRequest :=
  if name = "monitor_health" then
    .ok (monitor_health cfg)
  else if name = "monitor_stream_status" then
    .ok (monitor_stream_status cfg)
  else if name = "monitor_failures" then
    .ok (monitor_failures cfg (pyGet args "limit" (.num 10)) (pyGetN args "service"))
  else if name = "monitor_metrics" then
    .ok (monitor_metrics cfg (pyGet args "period" (.str "1h")))
  else .error (.unknownTool name)

/-- Composition of the five per-backend handlers that src/tools exports:
each tool name is routed to the module that declares it; a name declared
by no module is the per-module unknown-tool `ValueError`. -/
def terseToolRequest (cfg : ServiceConfig) (name : String) (args : ArgMap) :
    Except BuildError HttpRequest :=
  if name = "audio_identify" ∨ name = "audio_status" then
    call_audio_tool cfg name args
  else if name = "image_optimize" ∨ name = "image_info" then
    call_image_tool cfg name args
  else if name = "overlay_create" ∨ name = "overlay_list_templates" ∨
      name = "overlay_preview" then
    call_overlay_tool cfg name args
  else if name = "dispatcher_enqueue" ∨ name = "dispatcher_queue_status" ∨
      name = "dispatcher_job_status" ∨ name = "dispatcher_cancel" then
    call_dispatcher_tool cfg name args
  else if name = "monitor_health" ∨ name = "monitor_stream_status" ∨
      name = "monitor_failures" ∨ name = "monitor_metrics" then
    call_monitor_tool cfg name args
  else .error (.unknownTool name)

/-- A backend HTTP response: status code, raw body text, and the decoded
JSON body when the text is valid JSON. -/
structure HttpResponse where
  status : Nat
  text : String
  jsonBody : Option Json

/-- Outcome of one transport attempt: a response, or an
`httpx.RequestError` (connect, timeout or DNS failure) carrying its
message. -/
inductive TransportResult where
  | response : HttpResponse → TransportResult
  | netError : String → TransportResult

/-- Backend behaviour: what the network returns for each request. -/
def Backend := HttpRequest → TransportResult

/-- Outcome of `_execute_tool`: the decoded JSON on success, or the
exception propagating out of the branch — `httpx.HTTPStatusError` from
`raise_for_status`, `httpx.RequestError` from the transport,
`JSONDecodeError` from `response.json()`, `KeyError` for a missing
argument, or the unknown-tool `ValueError`. -/
inductive ExecResult where
  | ok : Json → ExecResult
  | httpStatusError : Nat → String → ExecResult
  | requestError : String → ExecResult
  | jsonError : String → ExecResult
  | keyError : String → ExecResult
  | unknownTool : String → ExecResult

/-- Message of the `JSONDecodeError` raised for an undecodable response
body.  The exact CPython message depends on where decoding fails; no claim
depends on it, so it is abstracted as a fixed prefix with the offending
text. -/
def jsonDecodeMsg (t : String) : String :=
  "Expecting value: " ++ t

/-- `response.raise_for_status()` followed by `response.json()`: a 2xx
status with a decodable body yields the decoded JSON; a non-2xx status
raises `HTTPStatusError` carrying the numeric status and the raw response
text; an undecodable 2xx body raises `JSONDecodeError`; a transport
failure propagates as `RequestError`. -/
def handleResponse : TransportResult → ExecResult
  | .netError m => .requestError m
  | .response r =>
    if 200 ≤ r.status ∧ r.status < 300 then
      match r.jsonBody with
      | some v => .ok v
      | none => .jsonError (jsonDecodeMsg r.text)
    else .httpStatusError r.status r.text

/-- Lift a request-building exception into the execution outcome. -/
def BuildError.toResult : BuildError → ExecResult
  | .keyError k => .keyError k
  | .unknownTool n => .unknownTool n

/-- `_execute_tool` from src/main.py: build the matched branch's request,
issue it once through the transport, and interpret the response. -/
def executeTool (b : Backend) (cfg : ServiceConfig) (name : String) (args : ArgMap) :
    ExecResult :=
  match executeToolRequest cfg name args with
  | .ok req => handleResponse (b req)
  | .error e => e.toResult

/-- The same execute pipeline through the terse per-backend handlers of
src/tools (whose `call_*_tool` functions have no exception handler of
their own, so a non-ok outcome propagates as a raised exception there). -/
def terseExecuteTool (b : Backend) (cfg : ServiceConfig) (name : String) (args : ArgMap) :
    ExecResult :=
  match terseToolRequest cfg name args with
  | .ok req => handleResponse (b req)
  | .error e => e.toResult

/-- `call_tool` from src/main.py: one text payload per invocation.  A
successful execution renders the decoded JSON with Python `str()`; each
exception class is converted by the `except` clauses to the corresponding
error text (`str` of a `KeyError` is the `repr` of the missing key).  The
function is total: no failure escapes the dispatch boundary. -/
def callTool (b : Backend) (cfg : ServiceConfig) (name : String) (args : ArgMap) :
    String :=
  match executeTool b cfg name args with
  | .ok v => pyStr v
  | .httpStatusError s t => "HTTP error: " ++ toString s ++ " - " ++ t
  | .requestError m => "Request error: " ++ m
  | .jsonError m => "Error executing tool " ++ name ++ ": " ++ m
  | .keyError k => "Error executing tool " ++ name ++ ": " ++ pyReprStr k
  | .unknownTool n => "Error executing tool " ++ name ++ ": Unknown tool: " ++ n

/-- A tool definition as advertised by `list_tools()` in src/main.py. -/
structure Tool where
  name : String
  description : String
  inputSchema : Json

/-- The static catalog `TOOLS` of src/main.py, in declaration order. -/
def TOOLS : List Tool := [
  ⟨"audio_identify", "Identify audio content from a file or stream",
    .obj [("type", .str "object"),
      ("properties", .obj [
        ("source", .obj [("type", .str "string"),
          ("description", .str "Path or URL to the audio source")]),
        ("duration", .obj [("type", .str "integer"),
          ("description", .str "Duration in seconds to analyze"),
          ("default", .num 10)])]),
      ("required", .arr [.str "source"])]⟩,
  ⟨"audio_status", "Get the status of an audio identification job",
    .obj [("type", .str "object"),
      ("properties", .obj [
        ("job_id", .obj [("type", .str "string"),
          ("description", .str "The job ID to check")])]),
      ("required", .arr [.str "job_id"])]⟩,
  ⟨"image_optimize", "Optimize an image for display",
    .obj [("type", .str "object"),
      ("properties", .obj [
        ("source", .obj [("type", .str "string"),
          ("description", .str "Path or URL to the image")]),
        ("width", .obj [("type", .str "integer"),
          ("description", .str "Target width in pixels")]),
        ("height", .obj [("type", .str "integer"),
          ("description", .str "Target height in pixels")]),
        ("format", .obj [("type", .str "string"),
          ("description", .str "Output format (jpeg, png, webp)"),
          ("enum", .arr [.str "jpeg", .str "png", .str "webp"]),
          ("default", .str "webp")]),
        ("quality", .obj [("type", .str "integer"),
          ("description", .str "Output quality (1-100)"),
          ("default", .num 85)])]),
      ("required", .arr [.str "source"])]⟩,
  ⟨"image_info", "Get metadata and info about an image",
    .obj [("type", .str "object"),
      ("properties", .obj [
        ("source", .obj [("type", .str "string"),
          ("description", .str "Path or URL to the image")])]),
      ("required", .arr [.str "source"])]⟩,
  ⟨"overlay_create", "Create an overlay image with text and graphics",
    .obj [("type", .str "object"),
      ("properties", .obj [
        ("template", .obj [("type", .str "string"),
          ("description", .str "Template name to use")]),
        ("data", .obj [("type", .str "object"),
          ("description", .str "Data to populate the template")]),
        ("width", .obj [("type", .str "integer"),
          ("description", .str "Overlay width in pixels"),
          ("default", .num 1920)]),
        ("height", .obj [("type", .str "integer"),
          ("description", .str "Overlay height in pixels"),
          ("default", .num 1080)])]),
      ("required", .arr [.str "template", .str "data"])]⟩,
  ⟨"overlay_list_templates", "List available overlay templates",
    .obj [("type", .str "object"), ("properties", .obj [])]⟩,
  ⟨"overlay_preview", "Generate a preview of an overlay",
    .obj [("type", .str "object"),
      ("properties", .obj [
        ("template", .obj [("type", .str "string"),
          ("description", .str "Template name to use")]),
        ("data", .obj [("type", .str "object"),
          ("description", .str "Data to populate the template")])]),
      ("required", .arr [.str "template", .str "data"])]⟩,
  ⟨"dispatcher_enqueue", "Enqueue a display job for processing",
    .obj [("type", .str "object"),
      ("properties", .obj [
        ("job_type", .obj [("type", .str "string"),
          ("description", .str "Type of job (image, video, slideshow)"),
          ("enum", .arr [.str "image", .str "video", .str "slideshow"])]),
        ("source", .obj [("type", .str "string"),
          ("description", .str "Path or URL to the content")]),
        ("priority", .obj [("type", .str "integer"),
          ("description", .str "Job priority (higher = more urgent)"),
          ("default", .num 5)]),
        ("options", .obj [("type", .str "object"),
          ("description", .str "Additional job options")])]),
      ("required", .arr [.str "job_type", .str "source"])]⟩,
  ⟨"dispatcher_queue_status", "Get the current queue status",
    .obj [("type", .str "object"), ("properties", .obj [])]⟩,
  ⟨"dispatcher_job_status", "Get the status of a specific job",
    .obj [("type", .str "object"),
      ("properties", .obj [
        ("job_id", .obj [("type", .str "string"),
          ("description", .str "The job ID to check")])]),
      ("required", .arr [.str "job_id"])]⟩,
  ⟨"dispatcher_cancel", "Cancel a pending or running job",
    .obj [("type", .str "object"),
      ("properties", .obj [
        ("job_id", .obj [("type", .str "string"),
          ("description", .str "The job ID to cancel")])]),
      ("required", .arr [.str "job_id"])]⟩,
  ⟨"monitor_health", "Check the health status of all services",
    .obj [("type", .str "object"), ("properties", .obj [])]⟩,
  ⟨"monitor_stream_status", "Get the current stream/display status",
    .obj [("type", .str "object"), ("properties", .obj [])]⟩,
  ⟨"monitor_failures", "Get recent failures and errors",
    .obj [("type", .str "object"),
      ("properties", .obj [
        ("limit", .obj [("type", .str "integer"),
          ("description", .str "Maximum number of failures to return"),
          ("default", .num 10)]),
        ("service", .obj [("type", .str "string"),
          ("description", .str "Filter by service name")])])]⟩,
  ⟨"monitor_metrics", "Get system metrics and statistics",
    .obj [("type", .str "object"),
      ("properties", .obj [
        ("period", .obj [("type", .str "string"),
          ("description", .str "Time period for metrics"),
          ("enum", .arr [.str "1h", .str "6h", .str "24h", .str "7d"]),
          ("default", .str "1h")])])]⟩]

/-- The tool names tested by the `if`/`elif` chain of `_execute_tool`, in
chain order. -/
def dispatcherNames : List String :=
  ["audio_identify", "audio_status", "image_optimize", "image_info",
   "overlay_create", "overlay_list_templates", "overlay_preview",
   "dispatcher_enqueue", "dispatcher_queue_status", "dispatcher_job_status",
   "dispatcher_cancel", "monitor_health", "monitor_stream_status",
   "monitor_failures", "monitor_metrics"]

/-- The default backend base URLs (src/config.py defaults), used as the
concrete configuration of witnesses. -/
def defaultServices : ServiceConfig :=
  ⟨"http://audio-id:8000", "http://image-opt:8000", "http://overlay:8000",
   "http://dispatcher:8000", "http://monitor:8000"⟩

/-- A process environment: maps a variable name to its value when set. -/
def Env := String → Option String

/-- Python `os.getenv(name, default)`. -/
def getenv (env : Env) (name dflt : String) : String :=
  (env name).getD dflt

/-- Leading- and trailing-whitespace stripping, as Python `int()` applies
to its argument (ASCII whitespace; Python additionally strips some
Unicode spaces, which no claim exercises). -/
def pyStripWs (s : String) : String :=
  String.mk (((s.toList.dropWhile Char.isWhitespace).reverse.dropWhile
    Char.isWhitespace).reverse)

/-- After an optional sign, a valid decimal literal for Python `int()`:
nonempty digits, with single underscores allowed only between digits. -/
def pyDigitsRest : List Char → Bool
  | [] => true
  | c :: cs =>
    if c = '_' then
      match cs with
      | c2 :: cs2 => c2.isDigit && pyDigitsRest cs2
      | [] => false
    else c.isDigit && pyDigitsRest cs

/-- Digit-run validity for Python `int()`. -/
def pyDigitsOk : List Char → Bool
  | [] => false
  | c :: cs => c.isDigit && pyDigitsRest cs

/-- Numeric value of a digit run (underscores removed). -/
def digitsToNat (cs : List Char) : Nat :=
  List.foldl (fun acc c => acc * 10 + (c.toNat - 48)) 0 cs

/-- Python `int(s)` on a decimal string: optional surrounding whitespace,
optional sign, then digits (with underscore separators).  `none` models
the `ValueError` raised for any other string. -/
def pyInt (s : String) : Option Int :=
  let t := (pyStripWs s).toList
  let neg := t.head? = some '-'
  let rest := match t with
    | '-' :: r => r
    | '+' :: r => r
    | r => r
  if pyDigitsOk rest then
    let n : Int := Int.ofNat (digitsToNat (rest.filter (fun c => c != '_')))
    some (if neg then -n else n)
  else none

/-- src/config.py `ServiceConfig` resolved against an environment: each
field falls back to its documented default when the variable is unset. -/
def loadServiceConfig (env : Env) : ServiceConfig :=
  ⟨getenv env "AUDIO_ID_URL" "http://audio-id:8000",
   getenv env "IMAGE_OPT_URL" "http://image-opt:8000",
   getenv env "OVERLAY_URL" "http://overlay:8000",
   getenv env "DISPATCHER_URL" "http://dispatcher:8000",
   getenv env "MONITOR_URL" "http://monitor:8000"⟩

/-- src/config.py `RabbitMQConfig` field values. -/
structure RabbitMQConfig where
  host : String
  port : Int
  user : String
  password : String

/-- The `url` property of `RabbitMQConfig`. -/
def RabbitMQConfig.amqpUrl (c : RabbitMQConfig) : String :=
  "amqp://" ++ c.user ++ ":" ++ c.password ++ "@" ++ c.host ++ ":" ++
    toString c.port ++ "/"

/-- src/config.py `RabbitMQConfig` resolved against an environment:
`int(os.getenv("RABBITMQ_PORT", "5672"))` raises `ValueError` when the
variable is set to a string that is not a decimal integer. -/
def loadRabbitMQConfig (env : Env) : Except String RabbitMQConfig :=
  let portStr := getenv env "RABBITMQ_PORT" "5672"
  match pyInt portStr with
  | some p =>
    .ok ⟨getenv env "RABBITMQ_HOST" "rabbitmq", p,
      getenv env "RABBITMQ_USER" "guest", getenv env "RABBITMQ_PASSWORD" "guest"⟩
  | none => .error ("invalid literal for int() with base 10: " ++ pyReprStr portStr)

/-- src/config.py `SambaConfig` field values. -/
structure SambaConfig where
  host : String
  share : String
  user : String
  password : String

/-- src/config.py `SambaConfig` resolved against an environment. -/
def loadSambaConfig (env : Env) : SambaConfig :=
  ⟨getenv env "SAMBA_HOST" "samba", getenv env "SAMBA_SHARE" "media",
   getenv env "SAMBA_USER" "guest", getenv env "SAMBA_PASSWORD" ""⟩

/-- src/config.py `Config`. -/
structure Config where
  services : ServiceConfig
  rabbitmq : RabbitMQConfig
  samba : SambaConfig
  log_level : String

/-- src/config.py `load_config()`: builds `Config()` from the process
environment; the only failure point is the integer coercion of
`RABBITMQ_PORT`. -/
def loadConfig (env : Env) : Except String Config :=
  match loadRabbitMQConfig env with
  | .ok r => .ok ⟨loadServiceConfig env, r, loadSambaConfig env, getenv env "LOG_LEVEL" "INFO"⟩
  | .error e => .error e

/-- The empty environment: every variable unset. -/
def emptyEnv : Env := fun _ => none

/-- Modelled from the spec, for contrast only (claim C9 speaks of a job id
"encoded as a single path segment"): RFC 3986 percent-encoding of one path
segment, uppercase hex, keeping unreserved characters.  The adapter itself
never encodes. -/
def specHexDigit (n : Nat) : Char :=
  if n < 10 then Char.ofNat (48 + n) else Char.ofNat (55 + n)

/-- Percent-encoding of a single character (ASCII model). -/
def specPctChar (c : Char) : String :=
  if c.isAlphanum || c = '-' || c = '.' || c = '_' || c = '~' then
    String.singleton c
  else
    "%" ++ String.singleton (specHexDigit (c.toNat / 16 % 16)) ++
      String.singleton (specHexDigit (c.toNat % 16))

/-- Percent-encoding of a whole path segment. -/
def specPctEncodeSegment (s : String) : String :=
  String.join (s.toList.map specPctChar)

mutual

/-- Modelled from the spec, for contrast only (claim C10 denies a "JSON
re-serialization"): a standard JSON rendering in the style of
`json.dumps` — double-quoted keys and strings, lowercase `true`, `false`
and `null`. -/
def specJsonRender : Json → String
  | .null => "null"
  | .bool true => "true"
  | .bool false => "false"
  | .num n => toString n
  | .str s => "\"" ++ s ++ "\""
  | .arr l => "[" ++ specJsonRenderList l ++ "]"
  | .obj l => "\x7b" ++ specJsonRenderFields l ++ "\x7d"
termination_by structural x => x

/-- Comma-separated JSON rendering of list elements. -/
def specJsonRenderList : List Json → String
  | [] => ""
  | [v] => specJsonRender v
  | v :: vs => specJsonRender v ++ ", " ++ specJsonRenderList vs
termination_by structural x => x

/-- Comma-separated JSON rendering of object entries. -/
def specJsonRenderFields : List (String × Json) → String
  | [] => ""
  | [(k, v)] => "\"" ++ k ++ "\": " ++ specJsonRender v
  | (k, v) :: kvs =>
    "\"" ++ k ++ "\": " ++ specJsonRender v ++ ", " ++ specJsonRenderFields kvs
termination_by structural x => x

end

/-- A backend that always fails at the network level; used by witnesses. -/
def probeBackend : Backend := fun _ => .netError "connection refused"

/-- A backend that always answers HTTP 500 with body `boom`. -/
def respond500 : Backend := fun _ => .response ⟨500, "boom", none⟩

/-- The timeout-independent content of a request: method, URL, body and
query parameters. -/
structure RequestCore where
  method : Method
  url : String
  body : Option Json
  params : List (String × Json)

/-- Project a request to its timeout-independent content. -/
def HttpRequest.core (r : HttpRequest) : RequestCore :=
  ⟨r.method, r.url, r.body, r.params⟩

/-- An optional argument is absent, or present with a truthy value (the
condition under which presence-gating and truthiness-gating agree). -/
def optPresentTruthy (args : ArgMap) (k : String) : Bool :=
  match getArg args k with
  | none => true
  | some v => pyTruthy v

/-- The truthiness-gated optional arguments of the invoked tool are each
absent or truthy: `width`/`height` for image_optimize, `options` for
dispatcher_enqueue, `service` for monitor_failures; no other tool gates an
argument on truthiness. -/
def optionalsAgree (name : String) (args : ArgMap) : Bool :=
  if name = "image_optimize" then
    optPresentTruthy args "width" && optPresentTruthy args "height"
  else if name = "dispatcher_enqueue" then
    optPresentTruthy args "options"
  else if name = "monitor_failures" then
    optPresentTruthy args "service"
  else true

/-- Observe one numeric aspect of a built request (and whether one was
built at all). -/
def reqNat (f : HttpRequest → Nat) : Except BuildError HttpRequest → Option Nat
  | .ok r => some (f r)
  | .error _ => none

/-- Number of fields in a request's JSON body (0 when absent or not an
object). -/
def bodyFieldCount (r : HttpRequest) : Nat :=
  match r.body with
  | some (.obj l) => l.length
  | _ => 0

/-- An environment whose only set variable is a non-numeric
`RABBITMQ_PORT`. -/
def badPortEnv : Env :=
  fun n => if n = "RABBITMQ_PORT" then some "abc" else none

/-- A backend that always answers HTTP 200 with the JSON object having one
true field. -/
def ok200 : Backend :=
  fun _ => .response ⟨200, "\x7b\"ok\": true\x7d", some (.obj [("ok", .bool true)])⟩

/-- A name outside the dispatcher's chain falls through every branch to
the final unknown-tool error. -/
theorem executeToolRequest_unknown_of_not_mem
    (n : String) (cfg : ServiceConfig) (args : ArgMap)
    (hn : n ∉ dispatcherNames) :
    executeToolRequest cfg n args = .error (.unknownTool n) := by
  simp only [dispatcherNames, List.mem_cons, List.not_mem_nil, or_false,
    not_or] at hn
  obtain ⟨e1, e2, e3, e4, e5, e6, e7, e8, e9, e10, e11, e12, e13, e14, e15⟩ := hn
  simp [executeToolRequest, e1, e2, e3, e4, e5, e6, e7, e8, e9, e10, e11,
    e12, e13, e14, e15]

/-- A name inside the dispatcher's chain is consumed by its branch and
never yields the unknown-tool error. -/
theorem executeToolRequest_ne_unknown_of_mem
    (n : String) (cfg : ServiceConfig) (args : ArgMap)
    (hn : n ∈ dispatcherNames) :
    executeToolRequest cfg n args ≠ .error (.unknownTool n) := by
  simp only [dispatcherNames, List.mem_cons, List.not_mem_nil, or_false] at hn
  rcases hn with rfl | rfl | rfl | rfl | rfl | rfl | rfl | rfl | rfl | rfl |
    rfl | rfl | rfl | rfl | rfl <;>
    cases h1 : getArg args "source" <;>
    cases h2 : getArg args "job_id" <;>
    cases h3 : getArg args "template" <;>
    cases h4 : getArg args "data" <;>
    cases h5 : getArg args "job_type" <;>
    simp [executeToolRequest, requireArg, h1, h2, h3, h4, h5, Bind.bind,
      Except.bind]

/-- C1 (amended): the tool catalog contains exactly 15 tool definitions —
not 16 — and for each of them `list_tools()` returns a definition whose
name is handled by exactly one branch of the dispatcher (the branch names
are pairwise distinct and equal the catalog names in order), while every
name absent from the catalog is resolved by no branch and falls through to
the unknown-tool error. -/
theorem c1_catalog_matches_dispatcher :
    TOOLS.length = 15 ∧
    TOOLS.map Tool.name = dispatcherNames ∧
    dispatcherNames.Nodup ∧
    (∀ (n : String) (cfg : ServiceConfig) (args : ArgMap),
      executeToolRequest cfg n args = .error (.unknownTool n) ↔
        n ∉ dispatcherNames) := by
  refine ⟨rfl, rfl, by decide, fun n cfg args => ⟨fun h hn => ?_, fun hn => ?_⟩⟩
  · exact executeToolRequest_ne_unknown_of_mem n cfg args hn h
  · exact executeToolRequest_unknown_of_not_mem n cfg args hn

/-- Witness for C1: a name outside the catalog is resolved by no branch
and yields the unknown-tool error. -/
theorem c1_catalog_matches_dispatcher_witness :
    executeToolRequest defaultServices "bogus_tool" [] =
      .error (.unknownTool "bogus_tool") :=
  (c1_catalog_matches_dispatcher.2.2.2 "bogus_tool" defaultServices []).mpr
    (by decide)

/-- C1 as stated is false: the catalog contains 15 tool definitions, not
16. -/
theorem c1_counterexample : TOOLS.length = 15 ∧ TOOLS.length ≠ 16 :=
  ⟨rfl, by decide⟩

/-- C2: for every known tool, invoking the dispatcher consults the
transport exactly once, on exactly the request built for the invocation
(first conjunct); and with the minimum required arguments that request has
the method and path of the §6.1 table, with path parameters substituted by
string interpolation, remaining arguments as a JSON body for POST tools
and as query parameters for GET tools. -/
theorem c2_single_request_method_path :
    ∀ (cfg : ServiceConfig) (s jid tpl jt : String) (d : Json),
      (∀ (b : Backend) (name : String) (args : ArgMap) (req : HttpRequest),
        executeToolRequest cfg name args = .ok req →
        executeTool b cfg name args = handleResponse (b req)) ∧
      executeToolRequest cfg "audio_identify" [("source", .str s)] =
        .ok ⟨.post, cfg.audio_id_url ++ "/identify",
          some (.obj [("source", .str s), ("duration", .num 10)]), [], 60⟩ ∧
      executeToolRequest cfg "audio_status" [("job_id", .str jid)] =
        .ok ⟨.get, cfg.audio_id_url ++ "/status/" ++ jid, none, [], 60⟩ ∧
      executeToolRequest cfg "image_optimize" [("source", .str s)] =
        .ok ⟨.post, cfg.image_opt_url ++ "/optimize",
          some (.obj [("source", .str s), ("format", .str "webp"),
            ("quality", .num 85)]), [], 60⟩ ∧
      executeToolRequest cfg "image_info" [("source", .str s)] =
        .ok ⟨.post, cfg.image_opt_url ++ "/info",
          some (.obj [("source", .str s)]), [], 60⟩ ∧
      executeToolRequest cfg "overlay_create" [("template", .str tpl), ("data", d)] =
        .ok ⟨.post, cfg.overlay_url ++ "/create",
          some (.obj [("template", .str tpl), ("data", d),
            ("width", .num 1920), ("height", .num 1080)]), [], 60⟩ ∧
      executeToolRequest cfg "overlay_list_templates" [] =
        .ok ⟨.get, cfg.overlay_url ++ "/templates", none, [], 60⟩ ∧
      executeToolRequest cfg "overlay_preview" [("template", .str tpl), ("data", d)] =
        .ok ⟨.post, cfg.overlay_url ++ "/preview",
          some (.obj [("template", .str tpl), ("data", d)]), [], 60⟩ ∧
      executeToolRequest cfg "dispatcher_enqueue"
          [("job_type", .str jt), ("source", .str s)] =
        .ok ⟨.post, cfg.dispatcher_url ++ "/enqueue",
          some (.obj [("job_type", .str jt), ("source", .str s),
            ("priority", .num 5)]), [], 60⟩ ∧
      executeToolRequest cfg "dispatcher_queue_status" [] =
        .ok ⟨.get, cfg.dispatcher_url ++ "/queue/status", none, [], 60⟩ ∧
      executeToolRequest cfg "dispatcher_job_status" [("job_id", .str jid)] =
        .ok ⟨.get, cfg.dispatcher_url ++ "/job/" ++ jid, none, [], 60⟩ ∧
      executeToolRequest cfg "dispatcher_cancel" [("job_id", .str jid)] =
        .ok ⟨.delete, cfg.dispatcher_url ++ "/job/" ++ jid, none, [], 60⟩ ∧
      executeToolRequest cfg "monitor_health" [] =
        .ok ⟨.get, cfg.monitor_url ++ "/health", none, [], 60⟩ ∧
      executeToolRequest cfg "monitor_stream_status" [] =
        .ok ⟨.get, cfg.monitor_url ++ "/stream/status", none, [], 60⟩ ∧
      executeToolRequest cfg "monitor_failures" [] =
        .ok ⟨.get, cfg.monitor_url ++ "/failures", none, [("limit", .num 10)], 60⟩ ∧
      executeToolRequest cfg "monitor_metrics" [] =
        .ok ⟨.get, cfg.monitor_url ++ "/metrics", none,
          [("period", .str "1h")], 60⟩ := by
  intro cfg s jid tpl jt d
  refine ⟨fun b name args req h => ?_, rfl, rfl, rfl, rfl, rfl, rfl, rfl, rfl,
    rfl, rfl, rfl, rfl, rfl, rfl, rfl⟩
  simp [executeTool, h]

/-- Witness for C2: the `monitor_health` invocation consults the transport
exactly once, on the GET request for the monitor health route. -/
theorem c2_single_request_method_path_witness :
    executeTool probeBackend defaultServices "monitor_health" [] =
      handleResponse (probeBackend
        ⟨.get, "http://monitor:8000/health", none, [], 60⟩) :=
  (c2_single_request_method_path defaultServices "" "" "" "" .null).1
    probeBackend "monitor_health" [] _ rfl

/-- C3: `call_tool` converts every failure into a returned error text — it
is a total function, so no failure is raised.  A non-2xx response yields a
text carrying the numeric status and the raw body; a network-level failure
yields a text carrying the underlying message; an unknown tool name and a
missing required argument yield the generic error text embedding the
exception message. -/
theorem c3_failures_become_results :
    ∀ (b : Backend) (cfg : ServiceConfig) (name : String) (args : ArgMap),
      (∀ (req : HttpRequest) (r : HttpResponse),
        executeToolRequest cfg name args = .ok req → b req = .response r →
        ¬(200 ≤ r.status ∧ r.status < 300) →
        callTool b cfg name args =
          "HTTP error: " ++ toString r.status ++ " - " ++ r.text) ∧
      (∀ (req : HttpRequest) (m : String),
        executeToolRequest cfg name args = .ok req → b req = .netError m →
        callTool b cfg name args = "Request error: " ++ m) ∧
      (name ∉ dispatcherNames →
        callTool b cfg name args =
          "Error executing tool " ++ name ++ ": Unknown tool: " ++ name) ∧
      (∀ k : String,
        executeToolRequest cfg name args = .error (.keyError k) →
        callTool b cfg name args =
          "Error executing tool " ++ name ++ ": " ++ pyReprStr k) := by
  intro b cfg name args
  refine ⟨fun req r h hb hs => ?_, fun req m h hb => ?_, fun hn => ?_,
    fun k h => ?_⟩
  · simp [callTool, executeTool, h, hb, handleResponse, hs]
  · simp [callTool, executeTool, h, hb, handleResponse]
  · simp [callTool, executeTool,
      executeToolRequest_unknown_of_not_mem name cfg args hn,
      BuildError.toResult]
  · simp [callTool, executeTool, h, BuildError.toResult]

/-- Witness for C3: the four failure classes at concrete inputs — HTTP 500
with body boom carries both the status and the body; a connection failure
carries its message; an unregistered name and a missing required argument
yield the generic error text. -/
theorem c3_failures_become_results_witness :
    callTool respond500 defaultServices "monitor_health" [] =
      "HTTP error: 500 - boom" ∧
    callTool probeBackend defaultServices "monitor_health" [] =
      "Request error: connection refused" ∧
    callTool respond500 defaultServices "bogus_tool" [] =
      "Error executing tool bogus_tool: Unknown tool: bogus_tool" ∧
    callTool respond500 defaultServices "audio_identify" [] =
      "Error executing tool audio_identify: \x27source\x27" := by
  refine ⟨?_, ?_, ?_, ?_⟩
  · exact ((c3_failures_become_results respond500 defaultServices
      "monitor_health" []).1 _ ⟨500, "boom", none⟩ rfl rfl (by decide)).trans rfl
  · exact ((c3_failures_become_results probeBackend defaultServices
      "monitor_health" []).2.1 _ "connection refused" rfl rfl).trans rfl
  · exact ((c3_failures_become_results respond500 defaultServices
      "bogus_tool" []).2.2.1 (by decide)).trans rfl
  · exact ((c3_failures_become_results respond500 defaultServices
      "audio_identify" []).2.2.2 "source" rfl).trans rfl

/-- Python `None` is falsy. -/
theorem pyTruthy_null : pyTruthy Json.null = false := rfl

/-- C4 (amended): for every known tool name and argument mapping in which
each truthiness-gated optional argument is absent or truthy, the two
dispatcher implementations build requests with the same method, URL, body
and query content; and, given the same backend response, they reach the
same execution outcome.  (The claim as stated fails: the timeouts differ —
the verbose dispatcher uses 60 s for every call while the terse handlers
use per-call values — and a falsy-valued optional argument is included by
the verbose dispatcher but omitted by the terse one; the verbose
dispatcher additionally converts error outcomes to text results while the
terse handlers raise them.) -/
theorem c4_amended_dispatchers_agree :
    ∀ (name : String) (cfg : ServiceConfig) (args : ArgMap),
      name ∈ dispatcherNames → optionalsAgree name args = true →
      (executeToolRequest cfg name args).map HttpRequest.core =
        (terseToolRequest cfg name args).map HttpRequest.core ∧
      (∀ tr : TransportResult,
        executeTool (fun _ => tr) cfg name args =
          terseExecuteTool (fun _ => tr) cfg name args) := by
  intro name cfg args hmem hopt
  simp only [dispatcherNames, List.mem_cons, List.not_mem_nil, or_false] at hmem
  rcases hmem with rfl | rfl | rfl | rfl | rfl | rfl | rfl | rfl | rfl | rfl |
    rfl | rfl | rfl | rfl | rfl
  · -- audio_identify
    refine ⟨?_, fun tr => ?_⟩ <;>
      cases h1 : getArg args "source" <;>
      simp [executeToolRequest, terseToolRequest, call_audio_tool,
        audio_identify, requireArg, h1, Bind.bind, Except.bind, Except.map,
        HttpRequest.core, executeTool, terseExecuteTool, BuildError.toResult]
  · -- audio_status
    refine ⟨?_, fun tr => ?_⟩ <;>
      cases h1 : getArg args "job_id" <;>
      simp [executeToolRequest, terseToolRequest, call_audio_tool,
        audio_status, requireArg, h1, Bind.bind, Except.bind, Except.map,
        HttpRequest.core, executeTool, terseExecuteTool, BuildError.toResult]
  · -- image_optimize
    simp only [optionalsAgree, reduceIte, Bool.and_eq_true] at hopt
    obtain ⟨hw, hh⟩ := hopt
    cases h1 : getArg args "source" with
    | none =>
      refine ⟨?_, fun tr => ?_⟩ <;>
        simp [executeToolRequest, terseToolRequest, call_image_tool,
          image_optimize, requireArg, h1, Bind.bind, Except.bind, Except.map,
          HttpRequest.core, executeTool, terseExecuteTool, BuildError.toResult]
    | some sv =>
      cases h2 : getArg args "width" with
      | none =>
        cases h3 : getArg args "height" with
        | none =>
          refine ⟨?_, fun tr => ?_⟩ <;>
            simp [executeToolRequest, terseToolRequest, call_image_tool,
              image_optimize, requireArg, pyGet, pyGetN, pyTruthy_null, h1, h2, h3,
              Bind.bind, Except.bind, Except.map, HttpRequest.core,
              executeTool, terseExecuteTool, BuildError.toResult]
        | some hv =>
          have hh2 : pyTruthy hv = true := by
            simpa [optPresentTruthy, h3] using hh
          refine ⟨?_, fun tr => ?_⟩ <;>
            simp [executeToolRequest, terseToolRequest, call_image_tool,
              image_optimize, requireArg, pyGet, pyGetN, pyTruthy_null, h1, h2, h3,
              hh2, Bind.bind, Except.bind, Except.map, HttpRequest.core,
              executeTool, terseExecuteTool, BuildError.toResult]
      | some wv =>
        have hw2 : pyTruthy wv = true := by
          simpa [optPresentTruthy, h2] using hw
        cases h3 : getArg args "height" with
        | none =>
          refine ⟨?_, fun tr => ?_⟩ <;>
            simp [executeToolRequest, terseToolRequest, call_image_tool,
              image_optimize, requireArg, pyGet, pyGetN, pyTruthy_null, h1, h2, h3,
              hw2, Bind.bind, Except.bind, Except.map, HttpRequest.core,
              executeTool, terseExecuteTool, BuildError.toResult]
        | some hv =>
          have hh2 : pyTruthy hv = true := by
            simpa [optPresentTruthy, h3] using hh
          refine ⟨?_, fun tr => ?_⟩ <;>
            simp [executeToolRequest, terseToolRequest, call_image_tool,
              image_optimize, requireArg, pyGet, pyGetN, pyTruthy_null, h1, h2, h3,
              hw2, hh2, Bind.bind, Except.bind, Except.map, HttpRequest.core,
              executeTool, terseExecuteTool, BuildError.toResult]
  · -- image_info
    refine ⟨?_, fun tr => ?_⟩ <;>
      cases h1 : getArg args "source" <;>
      simp [executeToolRequest, terseToolRequest, call_image_tool,
        image_info, requireArg, h1, Bind.bind, Except.bind, Except.map,
        HttpRequest.core, executeTool, terseExecuteTool, BuildError.toResult]
  · -- overlay_create
    refine ⟨?_, fun tr => ?_⟩ <;>
      cases h1 : getArg args "template" <;>
      cases h2 : getArg args "data" <;>
      simp [executeToolRequest, terseToolRequest, call_overlay_tool,
        overlay_create, requireArg, h1, h2, Bind.bind, Except.bind,
        Except.map, HttpRequest.core, executeTool, terseExecuteTool,
        BuildError.toResult]
  · -- overlay_list_templates
    refine ⟨?_, fun tr => ?_⟩ <;>
      simp [executeToolRequest, terseToolRequest, call_overlay_tool,
        overlay_list_templates, Except.map, HttpRequest.core, executeTool,
        terseExecuteTool, BuildError.toResult]
  · -- overlay_preview
    refine ⟨?_, fun tr => ?_⟩ <;>
      cases h1 : getArg args "template" <;>
      cases h2 : getArg args "data" <;>
      simp [executeToolRequest, terseToolRequest, call_overlay_tool,
        overlay_preview, requireArg, h1, h2, Bind.bind, Except.bind,
        Except.map, HttpRequest.core, executeTool, terseExecuteTool,
        BuildError.toResult]
  · -- dispatcher_enqueue
    simp only [optionalsAgree, reduceIte] at hopt
    cases h1 : getArg args "job_type" with
    | none =>
      refine ⟨?_, fun tr => ?_⟩ <;>
        simp [executeToolRequest, terseToolRequest, call_dispatcher_tool,
          dispatcher_enqueue, requireArg, h1, Bind.bind, Except.bind,
          Except.map, HttpRequest.core, executeTool, terseExecuteTool,
          BuildError.toResult]
    | some jv =>
      cases h2 : getArg args "source" with
      | none =>
        refine ⟨?_, fun tr => ?_⟩ <;>
          simp [executeToolRequest, terseToolRequest, call_dispatcher_tool,
            dispatcher_enqueue, requireArg, h1, h2, Bind.bind, Except.bind,
            Except.map, HttpRequest.core, executeTool, terseExecuteTool,
            BuildError.toResult]
      | some sv =>
        cases h3 : getArg args "options" with
        | none =>
          refine ⟨?_, fun tr => ?_⟩ <;>
            simp [executeToolRequest, terseToolRequest, call_dispatcher_tool,
              dispatcher_enqueue, requireArg, pyGet, pyGetN, pyTruthy_null, h1, h2,
              h3, Bind.bind, Except.bind, Except.map, HttpRequest.core,
              executeTool, terseExecuteTool, BuildError.toResult]
        | some ov =>
          have ho2 : pyTruthy ov = true := by
            simpa [optPresentTruthy, h3] using hopt
          refine ⟨?_, fun tr => ?_⟩ <;>
            simp [executeToolRequest, terseToolRequest, call_dispatcher_tool,
              dispatcher_enqueue, requireArg, pyGet, pyGetN, pyTruthy_null, h1, h2,
              h3, ho2, Bind.bind, Except.bind, Except.map, HttpRequest.core,
              executeTool, terseExecuteTool, BuildError.toResult]
  · -- dispatcher_queue_status
    refine ⟨?_, fun tr => ?_⟩ <;>
      simp [executeToolRequest, terseToolRequest, call_dispatcher_tool,
        dispatcher_queue_status, Except.map, HttpRequest.core, executeTool,
        terseExecuteTool, BuildError.toResult]
  · -- dispatcher_job_status
    refine ⟨?_, fun tr => ?_⟩ <;>
      cases h1 : getArg args "job_id" <;>
      simp [executeToolRequest, terseToolRequest, call_dispatcher_tool,
        dispatcher_job_status, requireArg, h1, Bind.bind, Except.bind,
        Except.map, HttpRequest.core, executeTool, terseExecuteTool,
        BuildError.toResult]
  · -- dispatcher_cancel
    refine ⟨?_, fun tr => ?_⟩ <;>
      cases h1 : getArg args "job_id" <;>
      simp [executeToolRequest, terseToolRequest, call_dispatcher_tool,
        dispatcher_cancel, requireArg, h1, Bind.bind, Except.bind,
        Except.map, HttpRequest.core, executeTool, terseExecuteTool,
        BuildError.toResult]
  · -- monitor_health
    refine ⟨?_, fun tr => ?_⟩ <;>
      simp [executeToolRequest, terseToolRequest, call_monitor_tool,
        monitor_health, Except.map, HttpRequest.core, executeTool,
        terseExecuteTool, BuildError.toResult]
  · -- monitor_stream_status
    refine ⟨?_, fun tr => ?_⟩ <;>
      simp [executeToolRequest, terseToolRequest, call_monitor_tool,
        monitor_stream_status, Except.map, HttpRequest.core, executeTool,
        terseExecuteTool, BuildError.toResult]
  · -- monitor_failures
    simp only [optionalsAgree, reduceIte] at hopt
    cases h1 : getArg args "service" with
    | none =>
      refine ⟨?_, fun tr => ?_⟩ <;>
        simp [executeToolRequest, terseToolRequest, call_monitor_tool,
          monitor_failures, pyGet, pyGetN, pyTruthy_null, h1, Except.map,
          HttpRequest.core, executeTool, terseExecuteTool,
          BuildError.toResult]
    | some sv =>
      have hs2 : pyTruthy sv = true := by
        simpa [optPresentTruthy, h1] using hopt
      refine ⟨?_, fun tr => ?_⟩ <;>
        simp [executeToolRequest, terseToolRequest, call_monitor_tool,
          monitor_failures, pyGet, pyGetN, pyTruthy_null, h1, hs2, Except.map,
          HttpRequest.core, executeTool, terseExecuteTool,
          BuildError.toResult]
  · -- monitor_metrics
    refine ⟨?_, fun tr => ?_⟩ <;>
      simp [executeToolRequest, terseToolRequest, call_monitor_tool,
        monitor_metrics, pyGet, Except.map, HttpRequest.core, executeTool,
        terseExecuteTool, BuildError.toResult]

/-- Witness for C4: on `audio_identify` with its required argument, both
dispatchers build the same method, URL, body and query content. -/
theorem c4_amended_dispatchers_agree_witness :
    (executeToolRequest defaultServices "audio_identify"
        [("source", .str "a.mp3")]).map HttpRequest.core =
      (terseToolRequest defaultServices "audio_identify"
        [("source", .str "a.mp3")]).map HttpRequest.core :=
  (c4_amended_dispatchers_agree "audio_identify" defaultServices
    [("source", .str "a.mp3")] (by decide) (by decide)).1

/-- C4 as stated is false: for `audio_status` the two dispatchers attach
different timeouts (60 s against 10 s), and for `image_optimize` with
`width = 0` they build different bodies (four fields against three — the
verbose dispatcher includes the falsy `width`, the terse one omits it). -/
theorem c4_counterexample :
    reqNat HttpRequest.timeout (executeToolRequest defaultServices
      "audio_status" [("job_id", .str "j1")]) = some 60 ∧
    reqNat HttpRequest.timeout (terseToolRequest defaultServices
      "audio_status" [("job_id", .str "j1")]) = some 10 ∧
    reqNat HttpRequest.timeout (executeToolRequest defaultServices
      "audio_status" [("job_id", .str "j1")]) ≠
      reqNat HttpRequest.timeout (terseToolRequest defaultServices
        "audio_status" [("job_id", .str "j1")]) ∧
    reqNat bodyFieldCount (executeToolRequest defaultServices
      "image_optimize" [("source", .str "a.jpg"), ("width", .num 0)]) = some 4 ∧
    reqNat bodyFieldCount (terseToolRequest defaultServices
      "image_optimize" [("source", .str "a.jpg"), ("width", .num 0)]) = some 3 ∧
    reqNat bodyFieldCount (executeToolRequest defaultServices
      "image_optimize" [("source", .str "a.jpg"), ("width", .num 0)]) ≠
      reqNat bodyFieldCount (terseToolRequest defaultServices
        "image_optimize" [("source", .str "a.jpg"), ("width", .num 0)]) :=
  ⟨rfl, rfl, by decide, rfl, rfl, by decide⟩

/-- Every request the verbose dispatcher builds carries the 60-second
client timeout of its shared `httpx.AsyncClient`. -/
theorem executeToolRequest_timeout_60 :
    ∀ (cfg : ServiceConfig) (name : String) (args : ArgMap) (req : HttpRequest),
      executeToolRequest cfg name args = .ok req → req.timeout = 60 := by
  intro cfg name args req h
  by_cases hmem : name ∈ dispatcherNames
  · simp only [dispatcherNames, List.mem_cons, List.not_mem_nil,
      or_false] at hmem
    rcases hmem with rfl | rfl | rfl | rfl | rfl | rfl | rfl | rfl | rfl |
      rfl | rfl | rfl | rfl | rfl | rfl <;>
      cases h1 : getArg args "source" <;>
      cases h2 : getArg args "job_id" <;>
      cases h3 : getArg args "template" <;>
      cases h4 : getArg args "data" <;>
      cases h5 : getArg args "job_type" <;>
      simp [executeToolRequest, requireArg, h1, h2, h3, h4, h5, Bind.bind,
        Except.bind] at h <;>
      first
        | exact Except.noConfusion h
        | rw [← h]
  · rw [executeToolRequest_unknown_of_not_mem name cfg args hmem] at h
    exact Except.noConfusion h

/-- C5 (amended): the per-call timeouts of the §6.1 table are those of the
terse per-backend handlers — 30 s for audio_identify, 10 s for
audio_status, 60 s for image_optimize, 30 s for image_info, 30 s for
overlay_create and overlay_preview, and 10 s for overlay_list_templates
and every dispatcher and monitor call — while every request issued by the
verbose main.py dispatcher carries the single 60-second client timeout
instead (first conjunct), so the table holds for the tools modules but not
for the main.py call path. -/
theorem c5_amended_per_call_timeouts :
    ∀ (cfg : ServiceConfig) (s jid tpl jt : String) (d : Json),
      (∀ (name : String) (args : ArgMap) (req : HttpRequest),
        executeToolRequest cfg name args = .ok req → req.timeout = 60) ∧
      reqNat HttpRequest.timeout (terseToolRequest cfg "audio_identify"
        [("source", .str s)]) = some 30 ∧
      reqNat HttpRequest.timeout (terseToolRequest cfg "audio_status"
        [("job_id", .str jid)]) = some 10 ∧
      reqNat HttpRequest.timeout (terseToolRequest cfg "image_optimize"
        [("source", .str s)]) = some 60 ∧
      reqNat HttpRequest.timeout (terseToolRequest cfg "image_info"
        [("source", .str s)]) = some 30 ∧
      reqNat HttpRequest.timeout (terseToolRequest cfg "overlay_create"
        [("template", .str tpl), ("data", d)]) = some 30 ∧
      reqNat HttpRequest.timeout (terseToolRequest cfg "overlay_list_templates"
        []) = some 10 ∧
      reqNat HttpRequest.timeout (terseToolRequest cfg "overlay_preview"
        [("template", .str tpl), ("data", d)]) = some 30 ∧
      reqNat HttpRequest.timeout (terseToolRequest cfg "dispatcher_enqueue"
        [("job_type", .str jt), ("source", .str s)]) = some 10 ∧
      reqNat HttpRequest.timeout (terseToolRequest cfg "dispatcher_queue_status"
        []) = some 10 ∧
      reqNat HttpRequest.timeout (terseToolRequest cfg "dispatcher_job_status"
        [("job_id", .str jid)]) = some 10 ∧
      reqNat HttpRequest.timeout (terseToolRequest cfg "dispatcher_cancel"
        [("job_id", .str jid)]) = some 10 ∧
      reqNat HttpRequest.timeout (terseToolRequest cfg "monitor_health"
        []) = some 10 ∧
      reqNat HttpRequest.timeout (terseToolRequest cfg "monitor_stream_status"
        []) = some 10 ∧
      reqNat HttpRequest.timeout (terseToolRequest cfg "monitor_failures"
        []) = some 10 ∧
      reqNat HttpRequest.timeout (terseToolRequest cfg "monitor_metrics"
        []) = some 10 := by
  intro cfg s jid tpl jt d
  exact ⟨executeToolRequest_timeout_60 cfg, rfl, rfl, rfl, rfl, rfl, rfl,
    rfl, rfl, rfl, rfl, rfl, rfl, rfl, rfl, rfl⟩

/-- Witness for C5: the verbose dispatcher's `monitor_health` request
carries the 60-second timeout. -/
theorem c5_amended_per_call_timeouts_witness :
    HttpRequest.timeout ⟨.get, "http://monitor:8000/health", none, [], 60⟩ = 60 :=
  (c5_amended_per_call_timeouts defaultServices "" "" "" "" .null).1
    "monitor_health" [] _ rfl

/-- C5 as stated is false: the verbose dispatcher issues `audio_status`
with a 60-second timeout, not the 10 seconds of the §6.1 table. -/
theorem c5_counterexample :
    reqNat HttpRequest.timeout (executeToolRequest defaultServices
      "audio_status" [("job_id", .str "job-1")]) = some 60 ∧
    reqNat HttpRequest.timeout (executeToolRequest defaultServices
      "audio_status" [("job_id", .str "job-1")]) ≠ some 10 :=
  ⟨rfl, by decide⟩

/-- C6: an `image_optimize` invocation whose arguments carry `source` but
neither `width` nor `height` sends a body of exactly the fields `source`,
`format` (default webp) and `quality` (default 85), omitting `width` and
`height`; supplying `width` (respectively `height`) includes exactly that
field with the supplied value; and with only `source = "a.jpg"` the body
is exactly the three defaulted fields. -/
theorem c6_image_optimize_body :
    ∀ (cfg : ServiceConfig) (args : ArgMap) (sv : Json),
      (getArg args "source" = some sv → getArg args "width" = none →
        getArg args "height" = none →
        executeToolRequest cfg "image_optimize" args =
          .ok ⟨.post, cfg.image_opt_url ++ "/optimize",
            some (.obj [("source", sv),
              ("format", pyGet args "format" (.str "webp")),
              ("quality", pyGet args "quality" (.num 85))]), [], 60⟩) ∧
      (∀ w : Json, getArg args "source" = some sv →
        getArg args "width" = some w → getArg args "height" = none →
        executeToolRequest cfg "image_optimize" args =
          .ok ⟨.post, cfg.image_opt_url ++ "/optimize",
            some (.obj [("source", sv),
              ("format", pyGet args "format" (.str "webp")),
              ("quality", pyGet args "quality" (.num 85)),
              ("width", w)]), [], 60⟩) ∧
      (∀ hv : Json, getArg args "source" = some sv →
        getArg args "width" = none → getArg args "height" = some hv →
        executeToolRequest cfg "image_optimize" args =
          .ok ⟨.post, cfg.image_opt_url ++ "/optimize",
            some (.obj [("source", sv),
              ("format", pyGet args "format" (.str "webp")),
              ("quality", pyGet args "quality" (.num 85)),
              ("height", hv)]), [], 60⟩) ∧
      executeToolRequest cfg "image_optimize" [("source", .str "a.jpg")] =
        .ok ⟨.post, cfg.image_opt_url ++ "/optimize",
          some (.obj [("source", .str "a.jpg"), ("format", .str "webp"),
            ("quality", .num 85)]), [], 60⟩ := by
  intro cfg args sv
  refine ⟨fun h1 h2 h3 => ?_, fun w h1 h2 h3 => ?_, fun hv h1 h2 h3 => ?_,
    rfl⟩ <;>
    simp [executeToolRequest, requireArg, h1, h2, h3, Bind.bind, Except.bind]

/-- Witness for C6: supplying `width = 640` includes exactly that field. -/
theorem c6_image_optimize_body_witness :
    executeToolRequest defaultServices "image_optimize"
        [("source", .str "a.jpg"), ("width", .num 640)] =
      .ok ⟨.post, "http://image-opt:8000/optimize",
        some (.obj [("source", .str "a.jpg"), ("format", .str "webp"),
          ("quality", .num 85), ("width", .num 640)]), [], 60⟩ :=
  ((c6_image_optimize_body defaultServices
      [("source", .str "a.jpg"), ("width", .num 640)] (.str "a.jpg")).2.1
    (.num 640) rfl rfl rfl).trans rfl

/-- C7: a `monitor_failures` invocation with no arguments sends exactly
the query parameters `limit = 10` with `service` omitted; with
`service = "overlay"` among the arguments the query parameters include
`service = "overlay"`. -/
theorem c7_monitor_failures_params :
    ∀ (cfg : ServiceConfig) (args : ArgMap),
      executeToolRequest cfg "monitor_failures" [] =
        .ok ⟨.get, cfg.monitor_url ++ "/failures", none,
          [("limit", .num 10)], 60⟩ ∧
      (getArg args "service" = some (.str "overlay") →
        executeToolRequest cfg "monitor_failures" args =
          .ok ⟨.get, cfg.monitor_url ++ "/failures", none,
            [("limit", pyGet args "limit" (.num 10)),
             ("service", .str "overlay")], 60⟩) := by
  intro cfg args
  refine ⟨rfl, fun h => ?_⟩
  simp [executeToolRequest, h]

/-- Witness for C7: with `service = "overlay"` the query parameters are
`limit = 10` and `service = "overlay"`. -/
theorem c7_monitor_failures_params_witness :
    executeToolRequest defaultServices "monitor_failures"
        [("service", .str "overlay")] =
      .ok ⟨.get, "http://monitor:8000/failures", none,
        [("limit", .num 10), ("service", .str "overlay")], 60⟩ :=
  ((c7_monitor_failures_params defaultServices
    [("service", .str "overlay")]).2 rfl).trans rfl

/-- C8 (amended): whenever `RABBITMQ_PORT` is unset or parses as a Python
integer literal, `load_config()` returns a configuration, and each unset
URL variable falls back to its documented default — in particular with all
five URL variables unset the backend base URLs are the five documented
defaults.  (The claim as stated — that this holds for every environment —
fails: `int()` raises when `RABBITMQ_PORT` is set to a non-integer
string.) -/
theorem c8_amended_load_config_defaults :
    ∀ env : Env,
      (∀ s : String, env "RABBITMQ_PORT" = some s → (pyInt s).isSome = true) →
      ∃ cfg : Config, loadConfig env = .ok cfg ∧
        (env "AUDIO_ID_URL" = none →
          cfg.services.audio_id_url = "http://audio-id:8000") ∧
        (env "IMAGE_OPT_URL" = none →
          cfg.services.image_opt_url = "http://image-opt:8000") ∧
        (env "OVERLAY_URL" = none →
          cfg.services.overlay_url = "http://overlay:8000") ∧
        (env "DISPATCHER_URL" = none →
          cfg.services.dispatcher_url = "http://dispatcher:8000") ∧
        (env "MONITOR_URL" = none →
          cfg.services.monitor_url = "http://monitor:8000") := by
  intro env hport
  have hsome : (pyInt (getenv env "RABBITMQ_PORT" "5672")).isSome = true := by
    cases hp : env "RABBITMQ_PORT" with
    | none => simp [getenv, hp]; rfl
    | some s => simpa [getenv, hp] using hport s hp
  obtain ⟨p, hpv⟩ := Option.isSome_iff_exists.mp hsome
  refine ⟨⟨loadServiceConfig env,
      ⟨getenv env "RABBITMQ_HOST" "rabbitmq", p,
        getenv env "RABBITMQ_USER" "guest",
        getenv env "RABBITMQ_PASSWORD" "guest"⟩,
      loadSambaConfig env, getenv env "LOG_LEVEL" "INFO"⟩,
    ?_, fun he => ?_, fun he => ?_, fun he => ?_, fun he => ?_, fun he => ?_⟩
  · simp [loadConfig, loadRabbitMQConfig, hpv]
  all_goals simp [loadServiceConfig, getenv, he]

/-- Witness for C8: with every variable unset, loading succeeds and the
five base URLs take their defaults. -/
theorem c8_amended_load_config_defaults_witness :
    ∃ cfg : Config, loadConfig emptyEnv = .ok cfg ∧
      (emptyEnv "AUDIO_ID_URL" = none →
        cfg.services.audio_id_url = "http://audio-id:8000") ∧
      (emptyEnv "IMAGE_OPT_URL" = none →
        cfg.services.image_opt_url = "http://image-opt:8000") ∧
      (emptyEnv "OVERLAY_URL" = none →
        cfg.services.overlay_url = "http://overlay:8000") ∧
      (emptyEnv "DISPATCHER_URL" = none →
        cfg.services.dispatcher_url = "http://dispatcher:8000") ∧
      (emptyEnv "MONITOR_URL" = none →
        cfg.services.monitor_url = "http://monitor:8000") :=
  c8_amended_load_config_defaults emptyEnv (fun _ h => nomatch h)

/-- C8 as stated is false: with `RABBITMQ_PORT=abc` the integer coercion
raises a `ValueError`, so `load_config()` does fail for this environment
rather than falling back to a default. -/
theorem c8_counterexample :
    loadConfig badPortEnv =
      .error "invalid literal for int() with base 10: \x27abc\x27" := by rfl

/-- C9: for every string job id, the URLs of `audio_status`,
`dispatcher_job_status` and `dispatcher_cancel` are the exact unescaped
concatenation of the backend base URL, the fixed path prefix, and the job
id; consequently a job id holding URL metacharacters lands in the URL
verbatim (last two conjuncts show `a/b?c#d` reaching the URL raw, not as
the percent-encoded single path segment). -/
theorem c9_unescaped_job_id_concatenation :
    ∀ (cfg : ServiceConfig) (args : ArgMap) (j : String),
      (getArg args "job_id" = some (.str j) →
        executeToolRequest cfg "audio_status" args =
          .ok ⟨.get, cfg.audio_id_url ++ "/status/" ++ j, none, [], 60⟩ ∧
        executeToolRequest cfg "dispatcher_job_status" args =
          .ok ⟨.get, cfg.dispatcher_url ++ "/job/" ++ j, none, [], 60⟩ ∧
        executeToolRequest cfg "dispatcher_cancel" args =
          .ok ⟨.delete, cfg.dispatcher_url ++ "/job/" ++ j, none, [], 60⟩) ∧
      executeToolRequest defaultServices "audio_status"
          [("job_id", .str "a/b?c#d")] =
        .ok ⟨.get, "http://audio-id:8000/status/a/b?c#d", none, [], 60⟩ ∧
      "http://audio-id:8000/status/a/b?c#d" ≠
        "http://audio-id:8000/status/" ++ specPctEncodeSegment "a/b?c#d" := by
  intro cfg args j
  refine ⟨fun h => ⟨?_, ?_, ?_⟩, rfl, by decide⟩ <;>
    simp [executeToolRequest, requireArg, h, pyStr, Bind.bind, Except.bind]

/-- Witness for C9: a concrete job id is concatenated into the URL
verbatim. -/
theorem c9_unescaped_job_id_concatenation_witness :
    executeToolRequest defaultServices "audio_status"
        [("job_id", .str "xyz")] =
      .ok ⟨.get, "http://audio-id:8000/status/xyz", none, [], 60⟩ :=
  (((c9_unescaped_job_id_concatenation defaultServices
    [("job_id", .str "xyz")] "xyz").1 rfl).1).trans rfl

/-- C10: on success the single text payload is Python's `str()` rendering
of the decoded JSON value — not a JSON re-serialization: a JSON object
with a true field renders with single-quoted keys and the token `True`,
which differs from its JSON serialization (and is not itself valid
JSON). -/
theorem c10_success_text_is_python_str :
    (∀ (b : Backend) (cfg : ServiceConfig) (name : String) (args : ArgMap)
      (v : Json), executeTool b cfg name args = .ok v →
        callTool b cfg name args = pyStr v) ∧
    pyStr (.obj [("ok", .bool true)]) = "\x7b\x27ok\x27: True\x7d" ∧
    specJsonRender (.obj [("ok", .bool true)]) = "\x7b\"ok\": true\x7d" ∧
    pyStr (.obj [("ok", .bool true)]) ≠
      specJsonRender (.obj [("ok", .bool true)]) := by
  refine ⟨fun b cfg name args v h => ?_, rfl, rfl, by decide⟩
  simp [callTool, h]

/-- Witness for C10: a successful `monitor_health` call returns the
Python `str()` rendering of the decoded object, with single-quoted key and
capitalised `True`. -/
theorem c10_success_text_is_python_str_witness :
    callTool ok200 defaultServices "monitor_health" [] =
      "\x7b\x27ok\x27: True\x7d" :=
  ((c10_success_text_is_python_str.1 ok200 defaultServices "monitor_health"
    [] (.obj [("ok", .bool true)]) rfl)).trans rfl
